import Mathlib

/-
Verification of the tool-invocation contract of the stargate MCP server.

The embedding models the repository's TypeScript source:
  - src/src/tools/asana.ts        (Asana transport client and tool handlers)
  - src/src/tools/slack.ts        (Slack transport client and tool handlers)
  - src/unnamed/part_000          (GitHub Projects transport clients and handlers)
  - src/src/tools/index.ts        (conditional tool registration)

JavaScript values are modelled by `Json`, with `Option Json` standing for a
possibly-`undefined` value (`none` = JS `undefined`, `some Json.null` = JS
`null`).  Property access, array iteration and strict string comparison follow
JavaScript semantics; operations that throw a `TypeError` in JavaScript are
modelled in the `Except String` monad.  The network is an explicit oracle
(a function from the constructed request to an `HttpResponse`), and every
transport client returns the list of requests it issued alongside its result,
so that outbound payloads and chosen request paths are observable.
Handlers are total Lean functions, which embeds the source's universal
try/catch: no exception escapes a handler.
-/

/-- A JSON value.  `num` carries an integer: every number the modelled
handlers place in a payload is integral. -/
inductive Json where
  | null : Json
  | bool : Bool → Json
  | num : Int → Json
  | str : String → Json
  | arr : List Json → Json
  | obj : List (String × Json) → Json
deriving Repr

/-- A JavaScript value: `none` models `undefined`. -/
abbrev JsVal := Option Json

/-- JavaScript truthiness of a value. -/
def truthy : JsVal → Bool
  | none => false
  | some Json.null => false
  | some (Json.bool b) => b
  | some (Json.num n) => n != 0
  | some (Json.str s) => s != ""
  | some (Json.arr _) => true
  | some (Json.obj _) => true

/-- Truthiness of `process.env.X` style values and of optional string
arguments: absent or empty string is falsy. -/
def optStrTruthy : Option String → Bool
  | none => false
  | some s => s != ""

/-- First binding of a key in an object's field list (JS object field lookup;
`none` = the property is absent, i.e. `undefined`). -/
def lookupField : List (String × Json) → String → Option Json
  | [], _ => none
  | (k, v) :: rest, key => if k == key then some v else lookupField rest key

/-- JavaScript property access `v[key]`: throws a TypeError on `undefined` or
`null`, looks the key up on objects, and yields `undefined` on other values. -/
def getProp : JsVal → String → Except String JsVal
  | none, key => .error (("TypeError: Cannot read properties of undefined (reading ") ++ key ++ (")"))
  | some Json.null, key => .error (("TypeError: Cannot read properties of null (reading ") ++ key ++ (")"))
  | some (Json.obj fields), key => .ok (lookupField fields key)
  | some _, _ => .ok none

/-- JavaScript optional-chain access `v?.[key]`: `undefined`/`null` receivers
short-circuit to `undefined` instead of throwing. -/
def getPropChain : JsVal → String → Except String JsVal
  | none, _ => .ok none
  | some Json.null, _ => .ok none
  | v, key => getProp v key

/-- Calling an array method (`.map`, `.filter`, `.some`) on a value: throws a
TypeError unless the value is an array; yields the elements. -/
def jsArrayElems : JsVal → Except String (List Json)
  | some (Json.arr elems) => .ok elems
  | _ => .error ("TypeError: value is not an array (no such method)")

/-- JavaScript strict equality `v === s` against a string literal or a
string-typed argument: true exactly when `v` is the same string. -/
def jsEqStr (v : JsVal) (s : String) : Bool :=
  match v with
  | some (Json.str a) => a == s
  | _ => false

mutual

/-- String coercion of a `Json` value, as performed by template literals. -/
def jsStrJson : Json → String
  | Json.null => "null"
  | Json.bool b => if b then "true" else "false"
  | Json.num n => toString n
  | Json.str s => s
  | Json.arr elems => jsStrElems elems
  | Json.obj _ => "[object Object]"

/-- `Array.prototype.join(",")` as used by array-to-string coercion:
`null` elements render empty. -/
def jsStrElems : List Json → String
  | [] => ""
  | [Json.null] => ""
  | [e] => jsStrJson e
  | Json.null :: rest => (",") ++ jsStrElems rest
  | e :: rest => jsStrJson e ++ (",") ++ jsStrElems rest

end

/-- String coercion of a JavaScript value (`undefined` renders as
"undefined", as in a template literal). -/
def jsStr : JsVal → String
  | none => "undefined"
  | some j => jsStrJson j

/-- Element rendering used by `Array.prototype.join`: `undefined` and `null`
elements become the empty string. -/
def joinElem : JsVal → String
  | none => ""
  | some Json.null => ""
  | v => jsStr v

/-- Minimal JSON string escaping (backslash and double quote). -/
def escapeJsonStr (s : String) : String :=
  (s.replace ("\\") ("\\\\")).replace ("\"") ("\\\"")

mutual

/-- `JSON.stringify` of a defined JSON value (compact rendering; the source
pretty-prints with two-space indent, which only changes whitespace). -/
def stringify : Json → String
  | Json.null => "null"
  | Json.bool b => if b then "true" else "false"
  | Json.num n => toString n
  | Json.str s => ("\"") ++ escapeJsonStr s ++ ("\"")
  | Json.arr elems => ("[") ++ stringifyElems elems ++ ("]")
  | Json.obj fields => ("\x7b") ++ stringifyFields fields ++ ("\x7d")

/-- Renders array elements, comma separated. -/
def stringifyElems : List Json → String
  | [] => ""
  | [e] => stringify e
  | e :: rest => stringify e ++ (",") ++ stringifyElems rest

/-- Renders object properties, comma separated. -/
def stringifyFields : List (String × Json) → String
  | [] => ""
  | [p] => ("\"") ++ escapeJsonStr p.1 ++ ("\":") ++ stringify p.2
  | p :: rest => ("\"") ++ escapeJsonStr p.1 ++ ("\":") ++ stringify p.2 ++ (",") ++ stringifyFields rest

end

/-- `JSON.stringify` of a JavaScript value: `JSON.stringify(undefined)` is
`undefined`, not a string. -/
def stringifyOpt : JsVal → Option String :=
  Option.map stringify

/-- A JavaScript object literal whose property values may be `undefined`, as
later consumed by `JSON.stringify` (which omits `undefined`-valued
properties). -/
def jsObj (fields : List (String × JsVal)) : Json :=
  Json.obj (fields.filterMap fun p => p.2.map fun v => (p.1, v))

/-- Interpolating a possibly-`undefined` string (e.g. the result of
`JSON.stringify`) into a template literal. -/
def jsTemplateStr : Option String → String
  | some s => s
  | none => "undefined"

/-- Whether an `Except` computation threw. -/
def exceptThrew : Except String α → Bool
  | .error _ => true
  | .ok _ => false

/-- Substring containment, used to state "the message carries ...". -/
def strContains (s sub : String) : Prop :=
  sub.data <:+: s.data

instance (s sub : String) : Decidable (strContains s sub) :=
  List.decidableInfix sub.data s.data

/-- `Array.prototype.map` with a callback that may throw. -/
def jsMapExcept (f : Json → Except String α) : List Json → Except String (List α)
  | [] => .ok []
  | x :: xs => do
    let y ← f x
    let ys ← jsMapExcept f xs
    pure (y :: ys)

/-- `Array.prototype.filter` with a callback that may throw: callbacks run
left to right and the first throw wins. -/
def jsFilter (p : Json → Except String Bool) : List Json → Except String (List Json)
  | [] => .ok []
  | x :: xs => do
    let b ← p x
    let rest ← jsFilter p xs
    pure (if b then x :: rest else rest)

/-- `Array.prototype.some` with a callback that may throw: short-circuits on
the first `true`. -/
def jsSome (p : Json → Except String Bool) : List Json → Except String Bool
  | [] => .ok false
  | x :: xs => do
    let b ← p x
    if b then pure true else jsSome p xs

/-- An HTTP response as observed through `fetch`: status, status text, raw
body text, and the result of parsing the body as JSON (`none` means
`response.json()` would reject). -/
structure HttpResponse where
  status : Nat
  statusText : String
  bodyText : String
  jsonBody : Option Json

/-- `response.ok`: status in the 200-299 range. -/
def httpOk (s : Nat) : Bool :=
  decide (200 ≤ s) && decide (s ≤ 299)

def HttpResponse.ok (r : HttpResponse) : Bool :=
  httpOk r.status

/-! ## Transport clients

Each client is split into a request-construction step (which records the
issued request) and a response-handling step, exactly mirroring the source's
single `fetch` per call.  The returned request list is empty precisely when
the client threw before reaching `fetch` (missing credential). -/

/-- A request issued by `asanaRequest`: relative endpoint, HTTP method, and
the structured value passed to `JSON.stringify` as the body (the source wraps
the caller's body in a `data` envelope key). -/
structure AsanaCall where
  endpoint : String
  method : String
  body : Option Json

/-- Processing of the `fetch` response inside `asanaRequest`
(src/src/tools/asana.ts lines 25-31): non-ok status throws with status and
raw body text; otherwise the parsed body's `data` property is returned. -/
def asanaHandleResp (resp : HttpResponse) : Except String JsVal :=
  if resp.ok = false then
    .error (("Asana API error (") ++ toString resp.status ++ ("): ") ++ resp.bodyText)
  else
    match resp.jsonBody with
    | none => .error ("SyntaxError: Unexpected end of JSON input")
    | some json => getProp (some json) ("data")

/-- `asanaRequest` (src/src/tools/asana.ts lines 6-32): throws when
`ASANA_TOKEN` is falsy, otherwise issues one request and processes the
response.  The second component records the issued requests. -/
def asanaRequest (token : Option String) (net : AsanaCall → HttpResponse)
    (endpoint : String) (method : String) (body : Option (List (String × Json))) :
    Except String JsVal × List AsanaCall :=
  if optStrTruthy token = false then
    (.error ("ASANA_TOKEN environment variable not set"), [])
  else
    let call : AsanaCall :=
      ⟨endpoint, method, body.map fun b => Json.obj [(("data"), Json.obj b)]⟩
    (asanaHandleResp (net call), [call])

/-- A request issued by `slackRequest`: Slack Web API method name and the
structured JSON body. -/
structure SlackCall where
  method : String
  body : Option Json

/-- Processing of the `fetch` response inside `slackRequest`
(src/src/tools/slack.ts lines 24-33): non-ok status throws with status and
HTTP status text; a parsed body whose `ok` property is falsy throws with the
body's `error` property; otherwise the whole parsed body is returned. -/
def slackHandleResp (resp : HttpResponse) : Except String Json :=
  if resp.ok = false then
    .error (("Slack HTTP error (") ++ toString resp.status ++ ("): ") ++ resp.statusText)
  else
    match resp.jsonBody with
    | none => .error ("SyntaxError: Unexpected end of JSON input")
    | some json => do
      let okV ← getProp (some json) ("ok")
      if truthy okV = false then do
        let errV ← getProp (some json) ("error")
        .error (("Slack API error: ") ++ jsStr errV)
      else
        pure json

/-- `slackRequest` (src/src/tools/slack.ts lines 6-34). -/
def slackRequest (token : Option String) (net : SlackCall → HttpResponse)
    (method : String) (body : Option (List (String × Json))) :
    Except String Json × List SlackCall :=
  if optStrTruthy token = false then
    (.error ("SLACK_TOKEN environment variable not set"), [])
  else
    let call : SlackCall := ⟨method, body.map Json.obj⟩
    (slackHandleResp (net call), [call])

/-- A request issued by `githubGraphQL`: the query text and the `variables`
object (whose values may be `undefined`; the field is named `vars` because
`variables` is reserved in Lean). -/
structure GqlCall where
  query : String
  vars : List (String × JsVal)

/-- Processing of the `fetch` response inside `githubGraphQL`
(src/unnamed/part_000 lines 25-35): non-ok status throws with status and raw
body; a parsed body with a truthy `errors` property throws with the
comma-joined `message` properties of its elements; otherwise the body's
`data` property is returned. -/
def githubGraphQLHandleResp (resp : HttpResponse) : Except String JsVal :=
  if resp.ok = false then
    .error (("GitHub GraphQL HTTP error (") ++ toString resp.status ++ ("): ") ++ resp.bodyText)
  else
    match resp.jsonBody with
    | none => .error ("SyntaxError: Unexpected end of JSON input")
    | some json => do
      let errsV ← getProp (some json) ("errors")
      if truthy errsV then do
        let errs ← jsArrayElems errsV
        let msgs ← jsMapExcept (fun e => getProp (some e) ("message")) errs
        .error (("GitHub GraphQL error: ") ++ String.intercalate (", ") (msgs.map joinElem))
      else
        getProp (some json) ("data")

/-- `githubGraphQL` (src/unnamed/part_000 lines 7-36). -/
def githubGraphQL (token : Option String) (net : GqlCall → HttpResponse)
    (query : String) (vars : List (String × JsVal)) :
    Except String JsVal × List GqlCall :=
  if optStrTruthy token = false then
    (.error ("GITHUB_TOKEN environment variable not set"), [])
  else
    let call : GqlCall := ⟨query, vars⟩
    (githubGraphQLHandleResp (net call), [call])

/-- A request issued by `githubRest`. -/
structure GhRestCall where
  endpoint : String
  method : String
  body : Option Json

/-- Processing of the `fetch` response inside `githubRest`
(src/unnamed/part_000 lines 59-68): non-ok status throws with status and raw
body; a 204 returns `null` without touching the body; otherwise the parsed
body is returned. -/
def githubRestHandleResp (resp : HttpResponse) : Except String JsVal :=
  if resp.ok = false then
    .error (("GitHub REST API error (") ++ toString resp.status ++ ("): ") ++ resp.bodyText)
  else if resp.status == 204 then
    .ok (some Json.null)
  else
    match resp.jsonBody with
    | none => .error ("SyntaxError: Unexpected end of JSON input")
    | some json => .ok (some json)

/-- `githubRest` (src/unnamed/part_000 lines 38-69). -/
def githubRest (token : Option String) (net : GhRestCall → HttpResponse)
    (endpoint : String) (method : String) (body : Option (List (String × Json))) :
    Except String JsVal × List GhRestCall :=
  if optStrTruthy token = false then
    (.error ("GITHUB_TOKEN environment variable not set"), [])
  else
    let call : GhRestCall := ⟨endpoint, method, body.map Json.obj⟩
    (githubRestHandleResp (net call), [call])

/-! ## Tool registry (src/src/tools/index.ts) -/

/-- The tool names registered by `registerAsanaTools`
(src/src/tools/asana.ts). -/
def asanaToolNames : List String :=
  [("asana_list_projects"), ("asana_list_workspaces"), ("asana_list_sections"),
   ("asana_list_tasks"), ("asana_get_task"), ("asana_update_custom_fields"),
   ("asana_move_task"), ("asana_update_task"), ("asana_add_comment")]

/-- The tool names registered by `registerSlackTools`
(src/src/tools/slack.ts). -/
def slackToolNames : List String :=
  [("slack_list_channels"), ("slack_send_message"), ("slack_read_messages"),
   ("slack_reply_to_thread")]

/-- The tool names registered by `registerGithubProjectsTools`
(src/unnamed/part_000). -/
def githubToolNames : List String :=
  [("github_list_projects"), ("github_get_project_fields"),
   ("github_list_project_items"), ("github_get_project_item"),
   ("github_update_project_item_field"), ("github_add_project_item"),
   ("github_list_issue_comments"), ("github_add_issue_comment"),
   ("github_list_sub_issues"), ("github_update_issue")]

/-- The three credential environment variables read at startup
(`none` = unset). -/
structure Env where
  asana_token : Option String
  slack_token : Option String
  github_token : Option String

/-- `registerTools` (src/src/tools/index.ts lines 6-39): each integration's
tools are registered exactly when its credential variable is truthy, in the
order Asana, Slack, GitHub.  The registry is modelled by the list of
registered tool names. -/
def registerTools (env : Env) : List String :=
  (if optStrTruthy env.asana_token then asanaToolNames else []) ++
  (if optStrTruthy env.slack_token then slackToolNames else []) ++
  (if optStrTruthy env.github_token then githubToolNames else [])
/-- The GraphQL query text of the `github_list_project_items` handler
(src/unnamed/part_000 lines 193-253), verbatim. -/
def githubListProjectItemsQuery : String :=
  "
          query($projectId: ID!, $first: Int!, $after: String) \x7b
            node(id: $projectId) \x7b
              ... on ProjectV2 \x7b
                items(first: $first, after: $after) \x7b
                  pageInfo \x7b
                    hasNextPage
                    endCursor
                  \x7d
                  nodes \x7b
                    id
                    fieldValues(first: 20) \x7b
                      nodes \x7b
                        ... on ProjectV2ItemFieldTextValue \x7b
                          text
                          field \x7b ... on ProjectV2Field \x7b name \x7d \x7d
                        \x7d
                        ... on ProjectV2ItemFieldNumberValue \x7b
                          number
                          field \x7b ... on ProjectV2Field \x7b name \x7d \x7d
                        \x7d
                        ... on ProjectV2ItemFieldDateValue \x7b
                          date
                          field \x7b ... on ProjectV2Field \x7b name \x7d \x7d
                        \x7d
                        ... on ProjectV2ItemFieldSingleSelectValue \x7b
                          name
                          field \x7b ... on ProjectV2SingleSelectField \x7b name \x7d \x7d
                        \x7d
                        ... on ProjectV2ItemFieldIterationValue \x7b
                          title
                          startDate
                          duration
                          field \x7b ... on ProjectV2IterationField \x7b name \x7d \x7d
                        \x7d
                      \x7d
                    \x7d
                    content \x7b
                      ... on Issue \x7b
                        number
                        title
                        state
                        url
                      \x7d
                      ... on PullRequest \x7b
                        number
                        title
                        state
                        url
                      \x7d
                      ... on DraftIssue \x7b
                        title
                        body
                      \x7d
                    \x7d
                  \x7d
                \x7d
              \x7d
            \x7d
          \x7d
        "

/-- The GraphQL query text of the `github_get_project_item` handler
(src/unnamed/part_000 lines 296-357), verbatim. -/
def githubGetProjectItemQuery : String :=
  "
          query($itemId: ID!) \x7b
            node(id: $itemId) \x7b
              ... on ProjectV2Item \x7b
                id
                fieldValues(first: 20) \x7b
                  nodes \x7b
                    ... on ProjectV2ItemFieldTextValue \x7b
                      text
                      field \x7b ... on ProjectV2Field \x7b name \x7d \x7d
                    \x7d
                    ... on ProjectV2ItemFieldNumberValue \x7b
                      number
                      field \x7b ... on ProjectV2Field \x7b name \x7d \x7d
                    \x7d
                    ... on ProjectV2ItemFieldDateValue \x7b
                      date
                      field \x7b ... on ProjectV2Field \x7b name \x7d \x7d
                    \x7d
                    ... on ProjectV2ItemFieldSingleSelectValue \x7b
                      name
                      field \x7b ... on ProjectV2SingleSelectField \x7b name \x7d \x7d
                    \x7d
                    ... on ProjectV2ItemFieldIterationValue \x7b
                      title
                      startDate
                      duration
                      field \x7b ... on ProjectV2IterationField \x7b name \x7d \x7d
                    \x7d
                  \x7d
                \x7d
                content \x7b
                  ... on Issue \x7b
                    number
                    title
                    body
                    state
                    url
                    assignees(first: 10) \x7b nodes \x7b login \x7d \x7d
                    labels(first: 10) \x7b nodes \x7b name color \x7d \x7d
                    milestone \x7b title dueOn \x7d
                  \x7d
                  ... on PullRequest \x7b
                    number
                    title
                    body
                    state
                    url
                    assignees(first: 10) \x7b nodes \x7b login \x7d \x7d
                    labels(first: 10) \x7b nodes \x7b name color \x7d \x7d
                    milestone \x7b title dueOn \x7d
                  \x7d
                  ... on DraftIssue \x7b
                    title
                    body
                    assignees(first: 10) \x7b nodes \x7b login \x7d \x7d
                  \x7d
                \x7d
              \x7d
            \x7d
          \x7d
        "

/-- The `addProjectV2ItemById` mutation text of the
`github_add_project_item` handler (src/unnamed/part_000 lines 438-444). -/
def addProjectItemByIdMutation : String :=
  "
            mutation($projectId: ID!, $contentId: ID!) \x7b
              addProjectV2ItemById(input: \x7b projectId: $projectId, contentId: $contentId \x7d) \x7b
                item \x7b id \x7d
              \x7d
            \x7d
          "

/-- The `addProjectV2DraftIssue` mutation text of the
`github_add_project_item` handler (src/unnamed/part_000 lines 450-456). -/
def addProjectDraftIssueMutation : String :=
  "
            mutation($projectId: ID!, $title: String!, $body: String) \x7b
              addProjectV2DraftIssue(input: \x7b projectId: $projectId, title: $title, body: $body \x7d) \x7b
                projectItem \x7b id \x7d
              \x7d
            \x7d
          "

/-! ## Tool handlers

Each handler is the body of the corresponding `server.tool(...)` callback.
A handler's result is the returned envelope paired with the list of requests
the transport issued during the invocation.  The uniform `catch` arm of every
handler renders the thrown `Error` into the envelope text. -/

/-- One `content` entry of an envelope.  `text` is `none` when the handler
assigned a JavaScript `undefined` (e.g. `JSON.stringify(undefined)`). -/
structure ContentItem where
  text : Option String
deriving Repr

/-- The invocation envelope every handler returns: `content` plus the
`isError` flag (absent in the source's success branches, i.e. `false`). -/
structure Envelope where
  content : List ContentItem
  isError : Bool
deriving Repr

/-- The uniform catch arm shared by every handler: one text item rendering
the caught `Error` via a template literal (so the text reads
"Error: Error: <message>"), with the error flag set. -/
def errEnvelope (m : String) : Envelope :=
  ⟨[⟨some (("Error: Error: ") ++ m)⟩], true⟩

/-- The endpoint built by the `asana_list_projects` handler. -/
def asanaListProjectsEndpoint (workspace_gid : String) : String :=
  ("/workspaces/") ++ workspace_gid ++ ("/projects?opt_fields=name,gid,current_status")

/-- The `asana_list_projects` handler (src/src/tools/asana.ts lines 42-56). -/
def asana_list_projects (token : Option String) (net : AsanaCall → HttpResponse)
    (workspace_gid : String) : Envelope × List AsanaCall :=
  let res := asanaRequest token net (asanaListProjectsEndpoint workspace_gid) ("GET") none
  match res.1 with
  | .ok projects => (⟨[⟨stringifyOpt projects⟩], false⟩, res.2)
  | .error m => (errEnvelope m, res.2)

/-- The `updates` object built by the `asana_update_task` handler
(src/src/tools/asana.ts lines 234-238): one key per supplied optional
argument, in source order. -/
def asanaUpdateTaskUpdates (name notes due_on : Option String)
    (completed : Option Bool) : List (String × Json) :=
  (match name with | some v => [(("name"), Json.str v)] | none => []) ++
  (match notes with | some v => [(("notes"), Json.str v)] | none => []) ++
  (match due_on with | some v => [(("due_on"), Json.str v)] | none => []) ++
  (match completed with | some v => [(("completed"), Json.bool v)] | none => [])

/-- The `asana_update_task` handler (src/src/tools/asana.ts lines 232-255). -/
def asana_update_task (token : Option String) (net : AsanaCall → HttpResponse)
    (task_gid : String) (name notes due_on : Option String)
    (completed : Option Bool) : Envelope × List AsanaCall :=
  let updates := asanaUpdateTaskUpdates name notes due_on completed
  let res := asanaRequest token net (("/tasks/") ++ task_gid) ("PUT") (some updates)
  match res.1 with
  | .ok task =>
    (⟨[⟨some (("Updated task:\n") ++ jsTemplateStr (stringifyOpt task))⟩], false⟩, res.2)
  | .error m => (errEnvelope m, res.2)

/-- The `params` object built by the `slack_list_channels` handler
(src/src/tools/slack.ts lines 49-51). -/
def slackListChannelsParams (limit : Option Int) (types : Option String) :
    List (String × Json) :=
  (match limit with | some v => [(("limit"), Json.num v)] | none => []) ++
  (match types with | some v => [(("types"), Json.str v)] | none => [])

/-- The projection applied to each fetched channel by `slack_list_channels`
(src/src/tools/slack.ts lines 54-61), including the JavaScript property
accesses that throw on `null` elements. -/
def slackChannelProjection (ch : Json) : Except String Json := do
  let idV ← getProp (some ch) ("id")
  let nameV ← getProp (some ch) ("name")
  let privV ← getProp (some ch) ("is_private")
  let topicV ← getProp (some ch) ("topic")
  let topicVal ← getPropChain topicV ("value")
  let purposeV ← getProp (some ch) ("purpose")
  let purposeVal ← getPropChain purposeV ("value")
  let numV ← getProp (some ch) ("num_members")
  pure (jsObj [(("id"), idV), (("name"), nameV), (("is_private"), privV),
               (("topic"), topicVal), (("purpose"), purposeVal),
               (("num_members"), numV)])

/-- The reshaping step of `slack_list_channels`: `json.channels` must support
`.map`, and each element is narrowed to the fixed projection. -/
def slackChannelsReshape (json : Json) : Except String (List Json) := do
  let chV ← getProp (some json) ("channels")
  let chans ← jsArrayElems chV
  jsMapExcept slackChannelProjection chans

/-- The `slack_list_channels` handler (src/src/tools/slack.ts lines 47-71). -/
def slack_list_channels (token : Option String) (net : SlackCall → HttpResponse)
    (limit : Option Int) (types : Option String) : Envelope × List SlackCall :=
  let params := slackListChannelsParams limit types
  let res := slackRequest token net ("conversations.list") (some params)
  match res.1 with
  | .error m => (errEnvelope m, res.2)
  | .ok json =>
    match slackChannelsReshape json with
    | .error m => (errEnvelope m, res.2)
    | .ok channels =>
      (⟨[⟨stringifyOpt (some (Json.arr channels))⟩], false⟩, res.2)

/-- The `slack_send_message` handler (src/src/tools/slack.ts lines 81-99). -/
def slack_send_message (token : Option String) (net : SlackCall → HttpResponse)
    (channel : String) (text : String) : Envelope × List SlackCall :=
  let res := slackRequest token net ("chat.postMessage")
    (some [(("channel"), Json.str channel), (("text"), Json.str text)])
  match res.1 with
  | .error m => (errEnvelope m, res.2)
  | .ok json =>
    match (do
      let msgV ← getProp (some json) ("message")
      getProp msgV ("ts")) with
    | .error m => (errEnvelope m, res.2)
    | .ok tsV =>
      (⟨[⟨some (("Message sent (ts: ") ++ jsStr tsV ++ (")"))⟩], false⟩, res.2)

/-- The per-field-value callback of the status filter of
`github_list_project_items` (src/unnamed/part_000 lines 262-266):
`(fv.field as Record<string, unknown> | undefined)?.name === "Status" &&
fv.name === status_filter`, with `&&` short-circuiting. -/
def fvStatusCallback (status_filter : String) (fv : Json) : Except String Bool := do
  let fieldV ← getProp (some fv) ("field")
  let fnameV ← getPropChain fieldV ("name")
  if jsEqStr fnameV ("Status") then do
    let vnameV ← getProp (some fv) ("name")
    pure (jsEqStr vnameV status_filter)
  else
    pure false

/-- The status-filter callback of `github_list_project_items`
(src/unnamed/part_000 lines 260-267): an item matches when some field value
satisfies `fvStatusCallback`. -/
def itemMatchesStatus (status_filter : String) (item : Json) : Except String Bool := do
  let fvV ← getProp (some item) ("fieldValues")
  let nodesV ← getProp fvV ("nodes")
  let fvs ← jsArrayElems nodesV
  jsSome (fvStatusCallback status_filter) fvs

/-- The reshaping step of `github_list_project_items` after the transport
call (src/unnamed/part_000 lines 255-277): reads `data.node.items`, filters
`items.nodes` only when the status filter is truthy, and rebuilds the
rendered object from the unfiltered `pageInfo` and the (possibly filtered)
items. -/
def githubListItemsReshape (dataV : JsVal) (status_filter : Option String) :
    Except String Json := do
  let nodeV ← getProp dataV ("node")
  let itemsV ← getProp nodeV ("items")
  let nodesV ← getProp itemsV ("nodes")
  let result ←
    match status_filter with
    | some s =>
      if s != "" then do
        let nodes ← jsArrayElems nodesV
        let filtered ← jsFilter (itemMatchesStatus s) nodes
        pure (some (Json.arr filtered))
      else
        pure nodesV
    | none => pure nodesV
  let pageInfoV ← getProp itemsV ("pageInfo")
  pure (jsObj [(("pageInfo"), pageInfoV), (("items"), result)])

/-- The request issued by `github_list_project_items`: the page size is
`first ?? 50` and the cursor is `after ?? null`, independent of the status
filter. -/
def listItemsCall (project_id : String) (count : Int) (after : Option String) : GqlCall :=
  ⟨githubListProjectItemsQuery,
   [(("projectId"), some (Json.str project_id)),
    (("first"), some (Json.num count)),
    (("after"), some ((after.map Json.str).getD Json.null))]⟩

/-- The `github_list_project_items` handler (src/unnamed/part_000 lines
190-284). -/
def github_list_project_items (token : Option String) (net : GqlCall → HttpResponse)
    (project_id : String) (first : Option Int) (after : Option String)
    (status_filter : Option String) : Envelope × List GqlCall :=
  let count := first.getD 50
  let res := githubGraphQL token net githubListProjectItemsQuery
    (listItemsCall project_id count after).vars
  match res.1 with
  | .error m => (errEnvelope m, res.2)
  | .ok dataV =>
    match githubListItemsReshape dataV status_filter with
    | .error m => (errEnvelope m, res.2)
    | .ok rendered => (⟨[⟨some (stringify rendered)⟩], false⟩, res.2)

/-- The `github_get_project_item` handler (src/unnamed/part_000 lines
294-368). -/
def github_get_project_item (token : Option String) (net : GqlCall → HttpResponse)
    (item_id : String) : Envelope × List GqlCall :=
  let res := githubGraphQL token net githubGetProjectItemQuery
    [(("itemId"), some (Json.str item_id))]
  match res.1 with
  | .error m => (errEnvelope m, res.2)
  | .ok dataV =>
    match getProp dataV ("node") with
    | .error m => (errEnvelope m, res.2)
    | .ok nodeV => (⟨[⟨stringifyOpt nodeV⟩], false⟩, res.2)

/-- The `github_add_project_item` handler (src/unnamed/part_000 lines
435-474): a truthy `content_id` selects the add-existing-item mutation, else
a truthy `draft_title` selects the draft-issue mutation, else the handler
throws (and catches) the mutual-requirement error. -/
def github_add_project_item (token : Option String) (net : GqlCall → HttpResponse)
    (project_id : String) (content_id draft_title draft_body : Option String) :
    Envelope × List GqlCall :=
  if optStrTruthy content_id then
    let res := githubGraphQL token net addProjectItemByIdMutation
      [(("projectId"), some (Json.str project_id)),
       (("contentId"), some (Json.str (content_id.getD "")))]
    match res.1 with
    | .ok dataV => (⟨[⟨stringifyOpt dataV⟩], false⟩, res.2)
    | .error m => (errEnvelope m, res.2)
  else if optStrTruthy draft_title then
    let res := githubGraphQL token net addProjectDraftIssueMutation
      [(("projectId"), some (Json.str project_id)),
       (("title"), some (Json.str (draft_title.getD ""))),
       (("body"), some ((draft_body.map Json.str).getD Json.null))]
    match res.1 with
    | .ok dataV => (⟨[⟨stringifyOpt dataV⟩], false⟩, res.2)
    | .error m => (errEnvelope m, res.2)
  else
    (errEnvelope ("Either content_id (for existing issue/PR) or draft_title (for draft issue) is required"), [])

/-- The `updates` object built by the `github_update_issue` handler
(src/unnamed/part_000 lines 570-575): one key per supplied optional
argument, in source order. -/
def githubUpdateIssueUpdates (title body state : Option String)
    (labels assignees : Option (List String)) : List (String × Json) :=
  (match title with | some v => [(("title"), Json.str v)] | none => []) ++
  (match body with | some v => [(("body"), Json.str v)] | none => []) ++
  (match state with | some v => [(("state"), Json.str v)] | none => []) ++
  (match labels with | some v => [(("labels"), Json.arr (v.map Json.str))] | none => []) ++
  (match assignees with | some v => [(("assignees"), Json.arr (v.map Json.str))] | none => [])

/-- The `github_update_issue` handler (src/unnamed/part_000 lines 568-591).
The issue state is one of the schema enum values "open"/"closed", modelled
as a string. -/
def github_update_issue (token : Option String) (net : GhRestCall → HttpResponse)
    (owner repo : String) (issue_number : Int) (title body state : Option String)
    (labels assignees : Option (List String)) : Envelope × List GhRestCall :=
  let updates := githubUpdateIssueUpdates title body state labels assignees
  let res := githubRest token net
    (("/repos/") ++ owner ++ ("/") ++ repo ++ ("/issues/") ++ toString issue_number)
    ("PATCH") (some updates)
  match res.1 with
  | .ok issue => (⟨[⟨stringifyOpt issue⟩], false⟩, res.2)
  | .error m => (errEnvelope m, res.2)

/-! ## Specification-side predicates

These restate the status-filter semantics in the words of the specification
("some field value of the item belongs to a field whose name is exactly the
string Status and whose value name is exactly equal to the supplied filter
string"), to be compared against the handler's callback. -/

/-- Spec wording: the field value belongs to a field whose name is exactly
the string "Status" (case-sensitive). -/
def fvBelongsToStatusField (fv : Json) : Bool :=
  match fv with
  | Json.obj fs =>
    (match lookupField fs ("field") with
     | some (Json.obj ffs) =>
       (match lookupField ffs ("name") with
        | some (Json.str n) => n == ("Status")
        | _ => false)
     | _ => false)
  | _ => false

/-- Spec wording: the field value's name is exactly equal to the supplied
filter string — no trimming or case folding on either side. -/
def fvValueNameIs (s : String) (fv : Json) : Bool :=
  match fv with
  | Json.obj fs =>
    (match lookupField fs ("name") with
     | some (Json.str m) => m == s
     | _ => false)
  | _ => false

/-- Spec wording: a field value matches when it belongs to a field named
exactly "Status" and its value name is exactly the filter string. -/
def fvIsStatusMatch (s : String) (fv : Json) : Bool :=
  fvBelongsToStatusField fv && fvValueNameIs s fv

/-- Spec wording: an item is kept when some of its field values matches the
status filter; an item without a matching "Status" field value is excluded. -/
def specStatusMatch (s : String) (item : Json) : Bool :=
  match item with
  | Json.obj ifs =>
    (match lookupField ifs ("fieldValues") with
     | some (Json.obj gfs) =>
       (match lookupField gfs ("nodes") with
        | some (Json.arr fvs) => fvs.any (fvIsStatusMatch s)
        | _ => false)
     | _ => false)
  | _ => false

/-! ## Concrete fixtures for counterexamples -/

/-- A Slack network oracle answering 200 OK with a well-formed API payload
that lacks the `channels` key: the transport call succeeds, the handler's
reshaping throws. -/
def slackNoChannelsNet : SlackCall → HttpResponse :=
  fun _ => ⟨200, ("OK"), ("\x7b\"ok\":true\x7d"), some (Json.obj [(("ok"), Json.bool true)])⟩

/-- A Slack network oracle answering a 500 whose raw body text differs from
the HTTP status text. -/
def slackServerErrorNet : SlackCall → HttpResponse :=
  fun _ => ⟨500, ("Internal Server Error"), ("slack raw body details"), none⟩

/-- A fetched project item that has a Priority field value but no field named
"Status". -/
def itemNoStatus : Json :=
  Json.obj [(("id"), Json.str ("ITEM-1")),
            (("fieldValues"), Json.obj [(("nodes"), Json.arr
              [Json.obj [(("field"), Json.obj [(("name"), Json.str ("Priority"))]),
                         (("name"), Json.str ("High"))]])])]

/-- The unfiltered page info of the fixture pages. -/
def pageInfoFixture : Json :=
  Json.obj [(("hasNextPage"), Json.bool true), (("endCursor"), Json.str ("CUR-1"))]

/-- A GraphQL response body carrying one fetched page with the given page
info and items list, in the shape `github_list_project_items` expects. -/
def listItemsRespBody (pi : Json) (items : List Json) : Json :=
  Json.obj [(("data"), Json.obj [(("node"), Json.obj [(("items"),
    Json.obj [(("pageInfo"), pi), (("nodes"), Json.arr items)])])])]

/-- A GitHub GraphQL oracle answering 200 with a one-item page whose single
item has no "Status" field. -/
def ghOneItemNet : GqlCall → HttpResponse :=
  fun _ => ⟨200, ("OK"), (""), some (listItemsRespBody pageInfoFixture [itemNoStatus])⟩

/-- A second fetched project item without a "Status" field, used by the
status-filter counterexample. -/
def itemOnlyText : Json :=
  Json.obj [(("id"), Json.str ("ITEM-2")),
            (("fieldValues"), Json.obj [(("nodes"), Json.arr
              [Json.obj [(("field"), Json.obj [(("name"), Json.str ("Title"))]),
                         (("text"), Json.str ("Ship it"))]])])]

/-- A GitHub GraphQL oracle answering 200 with a one-item page whose single
item carries only a Title text field. -/
def ghOnlyTextNet : GqlCall → HttpResponse :=
  fun _ => ⟨200, ("OK"), (""), some (listItemsRespBody pageInfoFixture [itemOnlyText])⟩


/-- A Slack oracle answering 200 with `{ok: false, error: "channel_not_found"}`. -/
def slackChannelNotFoundNet : SlackCall → HttpResponse :=
  fun _ => ⟨200, ("OK"), (""),
    some (Json.obj [(("ok"), Json.bool false), (("error"), Json.str ("channel_not_found"))])⟩

/-- A fetched project item whose "Status" single-select value is
"In Progress". -/
def itemInProgress : Json :=
  Json.obj [(("id"), Json.str ("ITEM-A")),
            (("fieldValues"), Json.obj [(("nodes"), Json.arr
              [Json.obj [(("field"), Json.obj [(("name"), Json.str ("Status"))]),
                         (("name"), Json.str ("In Progress"))]])])]

/-- A fetched project item whose "Status" single-select value is "Done". -/
def itemDone : Json :=
  Json.obj [(("id"), Json.str ("ITEM-B")),
            (("fieldValues"), Json.obj [(("nodes"), Json.arr
              [Json.obj [(("field"), Json.obj [(("name"), Json.str ("Status"))]),
                         (("name"), Json.str ("Done"))]])])]

/-- A GitHub GraphQL oracle answering 200 with a two-item page: one item in
progress, one done. -/
def ghTwoItemNet : GqlCall → HttpResponse :=
  fun _ => ⟨200, ("OK"), (""), some (listItemsRespBody pageInfoFixture [itemInProgress, itemDone])⟩

/-- A GitHub GraphQL oracle answering 200 with a top-level `errors` list
holding one message. -/
def ghGraphQLErrorsNet : GqlCall → HttpResponse :=
  fun _ => ⟨200, ("OK"), (""),
    some (Json.obj [(("errors"), Json.arr
      [Json.obj [(("message"), Json.str ("Could not resolve to a node"))]])])⟩

/-- A GitHub REST oracle answering 204 with an unparseable (empty) body. -/
def gh204Net : GhRestCall → HttpResponse :=
  fun _ => ⟨204, ("No Content"), (""), none⟩

/-- A GitHub REST oracle answering 200 with the JSON body `1`. -/
def gh200JsonNet : GhRestCall → HttpResponse :=
  fun _ => ⟨200, ("OK"), ("1"), some (Json.num 1)⟩

/-- An Asana oracle answering 404 with a distinctive raw body. -/
def asana404Net : AsanaCall → HttpResponse :=
  fun _ => ⟨404, ("Not Found"), ("asana raw error body"), none⟩

/-- A GitHub REST oracle answering 500 with a distinctive raw body. -/
def gh500Net : GhRestCall → HttpResponse :=
  fun _ => ⟨500, ("Internal Server Error"), ("github raw error body"), none⟩

/-- A Slack oracle answering 502 with a distinctive raw body. -/
def slack502Net : SlackCall → HttpResponse :=
  fun _ => ⟨502, ("Bad Gateway"), ("slack raw 502 body"), none⟩

/-- A GitHub GraphQL oracle answering 200 with `{data: null}`. -/
def ghNullDataNet : GqlCall → HttpResponse :=
  fun _ => ⟨200, ("OK"), (""), some (Json.obj [(("data"), Json.null)])⟩

/-- An Asana oracle answering 200 with `{data: {}}`. -/
def asanaOkNet : AsanaCall → HttpResponse :=
  fun _ => ⟨200, ("OK"), (""), some (Json.obj [(("data"), Json.obj [])])⟩

/-- A GitHub REST oracle answering 200 with `{}`. -/
def gh200EmptyObjNet : GhRestCall → HttpResponse :=
  fun _ => ⟨200, ("OK"), (""), some (Json.obj [])⟩


/-! ## Helper lemmas -/

/-- If the callback evaluates without throwing, `jsSome` computes `List.any`. -/
theorem jsSome_eq_ok (p : Json → Except String Bool) (f : Json → Bool) :
    ∀ l : List Json, (∀ x ∈ l, p x = Except.ok (f x)) →
      jsSome p l = Except.ok (l.any f)
  | [], _ => rfl
  | x :: xs, h => by
    have hx := h x (List.mem_cons_self x xs)
    have ih := jsSome_eq_ok p f xs (fun y hy => h y (List.mem_cons_of_mem x hy))
    simp only [jsSome, hx, List.any_cons]
    cases hfx : f x
    · exact ih
    · rfl

/-- If the callback evaluates without throwing, `jsFilter` computes
`List.filter`. -/
theorem jsFilter_eq_ok (p : Json → Except String Bool) (f : Json → Bool) :
    ∀ l : List Json, (∀ x ∈ l, p x = Except.ok (f x)) →
      jsFilter p l = Except.ok (l.filter f)
  | [], _ => rfl
  | x :: xs, h => by
    have hx := h x (List.mem_cons_self x xs)
    have ih := jsFilter_eq_ok p f xs (fun y hy => h y (List.mem_cons_of_mem x hy))
    simp only [jsFilter, hx, List.filter_cons]
    cases hfx : f x
    · rw [ih]; rfl
    · rw [ih]; rfl

/-- Reading `message` off a list of `{message: <string>}` objects. -/
theorem jsMapExcept_message (msgs : List String) :
    jsMapExcept (fun e => getProp (some e) ("message"))
      (msgs.map fun m => Json.obj [(("message"), Json.str m)]) =
    Except.ok (msgs.map fun m => some (Json.str m)) := by
  induction msgs with
  | nil => rfl
  | cons m ms ih =>
    simp only [List.map_cons, jsMapExcept]
    rw [ih]; rfl

/-- Joining defined string elements recovers the strings. -/
theorem joinElem_map_str (msgs : List String) :
    (msgs.map fun m => some (Json.str m)).map joinElem = msgs := by
  induction msgs with
  | nil => rfl
  | cons m ms ih =>
    simp only [List.map_cons, ih]
    rfl

/-- Joining defined string elements recovers the strings (composed form). -/
theorem joinElem_comp_str (msgs : List String) :
    msgs.map (joinElem ∘ fun m => some (Json.str m)) = msgs := by
  induction msgs with
  | nil => rfl
  | cons m ms ih =>
    simp only [List.map_cons, ih]
    rfl

/-- Property access on a defined object reduces to field lookup. -/
theorem getProp_obj (fields : List (String × Json)) (key : String) :
    getProp (some (Json.obj fields)) key = Except.ok (lookupField fields key) := rfl

/-- A string contains the middle part of an explicit decomposition. -/
theorem strContains_of_parts (a s b : String) : strContains (a ++ s ++ b) s :=
  ⟨a.data, b.data, by simp [String.data_append]⟩

/-- A string contains its own suffix. -/
theorem strContains_right (a s : String) : strContains (a ++ s) s :=
  ⟨a.data, [], by simp [String.data_append]⟩

/-! ## Claims -/

/-- Claim C8: when the messaging transport returns a 2xx response whose JSON
has `ok: false` and an error string, the `slack_send_message` handler returns
an error-flagged envelope whose text contains that error string, and the
single issued request is the `chat.postMessage` call. -/
theorem claim_c8_slack_api_error
    (token : Option String) (net : SlackCall → HttpResponse)
    (channel msgText e sText bText : String) (status : Nat)
    (htok : optStrTruthy token = true)
    (hnet : net ⟨("chat.postMessage"),
        some (Json.obj [(("channel"), Json.str channel), (("text"), Json.str msgText)])⟩ =
      ⟨status, sText, bText,
        some (Json.obj [(("ok"), Json.bool false), (("error"), Json.str e)])⟩)
    (hok : httpOk status = true) :
    slack_send_message token net channel msgText =
      (errEnvelope (("Slack API error: ") ++ e),
       [⟨("chat.postMessage"),
         some (Json.obj [(("channel"), Json.str channel), (("text"), Json.str msgText)])⟩]) ∧
    ∀ item ∈ (slack_send_message token net channel msgText).1.content,
      ∃ t, item.text = some t ∧ strContains t e := by
  have h1 : slack_send_message token net channel msgText =
      (errEnvelope (("Slack API error: ") ++ e),
       [⟨("chat.postMessage"),
         some (Json.obj [(("channel"), Json.str channel), (("text"), Json.str msgText)])⟩]) := by
    simp [slack_send_message, slackRequest, htok, hnet, slackHandleResp, HttpResponse.ok,
      hok, getProp, lookupField, truthy, jsStr, jsStrJson, Bind.bind, Except.bind,
      Pure.pure, Except.pure]
  refine ⟨h1, ?_⟩
  rw [h1]
  intro item hitem
  rw [List.mem_singleton.mp hitem]
  refine ⟨("Error: Error: ") ++ (("Slack API error: ") ++ e), rfl, ?_⟩
  rw [show ("Error: Error: ") ++ (("Slack API error: ") ++ e) =
      (("Error: Error: ") ++ ("Slack API error: ")) ++ e from (String.append_assoc _ _ _).symm]
  exact strContains_right _ e

/-- Claim C8 witness: the handler at the mocked `channel_not_found` transport
returns the error-flagged envelope carrying the error string. -/
theorem claim_c8_witness :
    slack_send_message (some ("tok")) slackChannelNotFoundNet ("C123") ("hello") =
      (errEnvelope (("Slack API error: ") ++ ("channel_not_found")),
       [⟨("chat.postMessage"),
         some (Json.obj [(("channel"), Json.str ("C123")), (("text"), Json.str ("hello"))])⟩]) :=
  (claim_c8_slack_api_error (some ("tok")) slackChannelNotFoundNet ("C123") ("hello")
    ("channel_not_found") ("OK") ("") 200 (by decide) rfl (by decide)).1

/-- Claim C9: the GitHub REST client returns `null` for a 204 response
without deserializing the body, and the deserialized JSON body for every
other 2xx response. -/
theorem claim_c9_rest_204
    (token : Option String) (net : GhRestCall → HttpResponse)
    (endpoint method : String) (body : Option (List (String × Json)))
    (resp : HttpResponse)
    (htok : optStrTruthy token = true)
    (hnet : net ⟨endpoint, method, body.map Json.obj⟩ = resp) :
    (resp.status = 204 →
      (githubRest token net endpoint method body).1 = Except.ok (some Json.null)) ∧
    (httpOk resp.status = true → resp.status ≠ 204 → ∀ j, resp.jsonBody = some j →
      (githubRest token net endpoint method body).1 = Except.ok (some j)) := by
  constructor
  · intro h204
    simp [githubRest, htok, hnet, githubRestHandleResp, HttpResponse.ok, h204, httpOk]
  · intro hok hne j hj
    simp [githubRest, htok, hnet, githubRestHandleResp, HttpResponse.ok, hok, hj, hne]

/-- Claim C9 witness: a 204 with an unparseable body still yields `null`; a
200 carrying the JSON body `1` yields that body. -/
theorem claim_c9_witness :
    (githubRest (some ("tok")) gh204Net ("/repos/o/r/issues/1") ("DELETE") none).1 =
      Except.ok (some Json.null) ∧
    (githubRest (some ("tok")) gh200JsonNet ("/repos/o/r/issues/1") ("GET") none).1 =
      Except.ok (some (Json.num 1)) := by
  constructor
  · exact (claim_c9_rest_204 (some ("tok")) gh204Net ("/repos/o/r/issues/1") ("DELETE")
      none (gh204Net ⟨("/repos/o/r/issues/1"), ("DELETE"), none⟩) (by decide) rfl).1 rfl
  · exact (claim_c9_rest_204 (some ("tok")) gh200JsonNet ("/repos/o/r/issues/1") ("GET")
      none (gh200JsonNet ⟨("/repos/o/r/issues/1"), ("GET"), none⟩) (by decide) rfl).2
      (by decide) (by decide) (Json.num 1) rfl

/-- Claim C6 counterexample: the Slack client's failure for a non-success
HTTP response carries the HTTP status text, not the raw response body — here
the raw body "slack raw body details" is absent from the message. -/
theorem claim_c6_counterexample :
    (slackRequest (some ("tok")) slackServerErrorNet ("chat.postMessage") none).1 =
      Except.error ("Slack HTTP error (500): Internal Server Error") ∧
    ¬ strContains ("Slack HTTP error (500): Internal Server Error") ("slack raw body details") := by
  constructor
  · rfl
  · decide

/-- Claim C6 (amended): for every non-success HTTP response, the Asana and
GitHub REST clients raise a failure whose message carries the HTTP status
code and the raw response body, while the Slack client's message carries the
status code and the HTTP status text instead of the body. -/
theorem claim_c6_rest_failure_messages
    (token : Option String)
    (anet : AsanaCall → HttpResponse) (gnet : GhRestCall → HttpResponse)
    (snet : SlackCall → HttpResponse)
    (aEndpoint aMethod gEndpoint gMethod sMethod : String)
    (aBody gBody sBody : Option (List (String × Json)))
    (aResp gResp sResp : HttpResponse)
    (htok : optStrTruthy token = true)
    (hanet : anet ⟨aEndpoint, aMethod,
      aBody.map fun b => Json.obj [(("data"), Json.obj b)]⟩ = aResp)
    (hgnet : gnet ⟨gEndpoint, gMethod, gBody.map Json.obj⟩ = gResp)
    (hsnet : snet ⟨sMethod, sBody.map Json.obj⟩ = sResp)
    (haok : httpOk aResp.status = false)
    (hgok : httpOk gResp.status = false)
    (hsok : httpOk sResp.status = false) :
    ((asanaRequest token anet aEndpoint aMethod aBody).1 =
      Except.error ((("Asana API error (") ++ toString aResp.status ++ ("): ")) ++ aResp.bodyText) ∧
     strContains ((("Asana API error (") ++ toString aResp.status ++ ("): ")) ++ aResp.bodyText)
       (toString aResp.status) ∧
     strContains ((("Asana API error (") ++ toString aResp.status ++ ("): ")) ++ aResp.bodyText)
       aResp.bodyText) ∧
    ((githubRest token gnet gEndpoint gMethod gBody).1 =
      Except.error ((("GitHub REST API error (") ++ toString gResp.status ++ ("): ")) ++ gResp.bodyText) ∧
     strContains ((("GitHub REST API error (") ++ toString gResp.status ++ ("): ")) ++ gResp.bodyText)
       (toString gResp.status) ∧
     strContains ((("GitHub REST API error (") ++ toString gResp.status ++ ("): ")) ++ gResp.bodyText)
       gResp.bodyText) ∧
    ((slackRequest token snet sMethod sBody).1 =
      Except.error ((("Slack HTTP error (") ++ toString sResp.status ++ ("): ")) ++ sResp.statusText) ∧
     strContains ((("Slack HTTP error (") ++ toString sResp.status ++ ("): ")) ++ sResp.statusText)
       sResp.statusText) := by
  refine ⟨⟨?_, ?_, ?_⟩, ⟨?_, ?_, ?_⟩, ⟨?_, ?_⟩⟩
  · simp [asanaRequest, htok, hanet, asanaHandleResp, HttpResponse.ok, haok,
      String.append_assoc]
  · exact ⟨("Asana API error (").data, (("): ") ++ aResp.bodyText).data,
      by simp [String.data_append]⟩
  · exact strContains_right _ _
  · simp [githubRest, htok, hgnet, githubRestHandleResp, HttpResponse.ok, hgok,
      String.append_assoc]
  · exact ⟨("GitHub REST API error (").data, (("): ") ++ gResp.bodyText).data,
      by simp [String.data_append]⟩
  · exact strContains_right _ _
  · simp [slackRequest, htok, hsnet, slackHandleResp, HttpResponse.ok, hsok,
      String.append_assoc]
  · exact strContains_right _ _

/-- Claim C6 witness: concrete non-success responses for all three clients. -/
theorem claim_c6_witness :
    (asanaRequest (some ("tok")) asana404Net ("/workspaces") ("GET") none).1 =
      Except.error ("Asana API error (404): asana raw error body") ∧
    (githubRest (some ("tok")) gh500Net ("/repos/o/r") ("GET") none).1 =
      Except.error ("GitHub REST API error (500): github raw error body") ∧
    (slackRequest (some ("tok")) slack502Net ("conversations.list") none).1 =
      Except.error ("Slack HTTP error (502): Bad Gateway") := by
  have h := claim_c6_rest_failure_messages (some ("tok")) asana404Net gh500Net slack502Net
    ("/workspaces") ("GET") ("/repos/o/r") ("GET") ("conversations.list")
    none none none
    (asana404Net ⟨("/workspaces"), ("GET"), none⟩)
    (gh500Net ⟨("/repos/o/r"), ("GET"), none⟩)
    (slack502Net ⟨("conversations.list"), none⟩)
    (by decide) rfl rfl rfl (by decide) (by decide) (by decide)
  exact ⟨h.1.1, h.2.1.1, h.2.2.1⟩

/-- Membership in the registry, by integration. -/
theorem mem_registerTools (env : Env) (t : String) :
    t ∈ registerTools env ↔
      ((optStrTruthy env.asana_token = true ∧ t ∈ asanaToolNames) ∨
       (optStrTruthy env.slack_token = true ∧ t ∈ slackToolNames) ∨
       (optStrTruthy env.github_token = true ∧ t ∈ githubToolNames)) := by
  unfold registerTools
  cases hA : optStrTruthy env.asana_token <;>
  cases hS : optStrTruthy env.slack_token <;>
  cases hG : optStrTruthy env.github_token <;>
  simp [hA, hS, hG]

/-- Claim C2 counterexample: with `ASANA_TOKEN` present but set to the empty
string, the variable is set yet no Asana tool is registered (the source
tests truthiness, not presence). -/
theorem claim_c2_counterexample :
    (Env.mk (some ("")) none none).asana_token.isSome = true ∧
    ("asana_list_projects") ∈ asanaToolNames ∧
    ("asana_list_projects") ∉ registerTools (Env.mk (some ("")) none none) := by
  decide

/-- Claim C2 (amended): after `registerTools` runs, the registry contains a
tool of an integration if and only if that integration's credential variable
was set to a non-empty (truthy) value, and contains nothing else. -/
theorem claim_c2_registry_iff (env : Env) (t : String) :
    (t ∈ asanaToolNames →
      (t ∈ registerTools env ↔ optStrTruthy env.asana_token = true)) ∧
    (t ∈ slackToolNames →
      (t ∈ registerTools env ↔ optStrTruthy env.slack_token = true)) ∧
    (t ∈ githubToolNames →
      (t ∈ registerTools env ↔ optStrTruthy env.github_token = true)) ∧
    (t ∈ registerTools env →
      t ∈ asanaToolNames ∨ t ∈ slackToolNames ∨ t ∈ githubToolNames) := by
  have hA2 : ∀ x ∈ asanaToolNames, x ∉ slackToolNames ∧ x ∉ githubToolNames := by decide
  have hS2 : ∀ x ∈ slackToolNames, x ∉ asanaToolNames ∧ x ∉ githubToolNames := by decide
  have hG2 : ∀ x ∈ githubToolNames, x ∉ asanaToolNames ∧ x ∉ slackToolNames := by decide
  refine ⟨?_, ?_, ?_, ?_⟩
  · intro ht
    rw [mem_registerTools]
    constructor
    · rintro (⟨hc, _⟩ | ⟨_, hm⟩ | ⟨_, hm⟩)
      · exact hc
      · exact absurd hm (hA2 t ht).1
      · exact absurd hm (hA2 t ht).2
    · intro hc
      exact Or.inl ⟨hc, ht⟩
  · intro ht
    rw [mem_registerTools]
    constructor
    · rintro (⟨_, hm⟩ | ⟨hc, _⟩ | ⟨_, hm⟩)
      · exact absurd hm (hS2 t ht).1
      · exact hc
      · exact absurd hm (hS2 t ht).2
    · intro hc
      exact Or.inr (Or.inl ⟨hc, ht⟩)
  · intro ht
    rw [mem_registerTools]
    constructor
    · rintro (⟨_, hm⟩ | ⟨_, hm⟩ | ⟨hc, _⟩)
      · exact absurd hm (hG2 t ht).1
      · exact absurd hm (hG2 t ht).2
      · exact hc
    · intro hc
      exact Or.inr (Or.inr ⟨hc, ht⟩)
  · intro hmem
    rw [mem_registerTools] at hmem
    rcases hmem with ⟨_, h⟩ | ⟨_, h⟩ | ⟨_, h⟩
    · exact Or.inl h
    · exact Or.inr (Or.inl h)
    · exact Or.inr (Or.inr h)

/-- Claim C2 witness: with only a non-empty `ASANA_TOKEN`, an Asana tool is
registered and a Slack tool is not. -/
theorem claim_c2_witness :
    ("asana_list_projects") ∈ registerTools (Env.mk (some ("x")) none none) ∧
    ("slack_send_message") ∉ registerTools (Env.mk (some ("x")) none none) := by
  have h1 := (claim_c2_registry_iff (Env.mk (some ("x")) none none)
    ("asana_list_projects")).1 (by decide)
  have h2 := (claim_c2_registry_iff (Env.mk (some ("x")) none none)
    ("slack_send_message")).2.1 (by decide)
  exact ⟨h1.mpr (by decide), fun hm => absurd (h2.mp hm) (by decide)⟩

set_option maxRecDepth 8192 in
/-- Claim C3: calling `github_add_project_item` with neither `content_id`
nor `draft_title` truthy (absent or empty) yields an error-flagged envelope
whose text says one of the two is required, with no request issued; when
`content_id` is supplied non-empty, the add-existing-item mutation is the
single issued request, regardless of `draft_title`. -/
theorem claim_c3_add_item_policy
    (token : Option String) (net : GqlCall → HttpResponse)
    (project_id : String) (content_id draft_title draft_body : Option String) :
    (optStrTruthy content_id = false → optStrTruthy draft_title = false →
      github_add_project_item token net project_id content_id draft_title draft_body =
        (errEnvelope ("Either content_id (for existing issue/PR) or draft_title (for draft issue) is required"),
         []) ∧
      strContains (("Error: Error: ") ++
        ("Either content_id (for existing issue/PR) or draft_title (for draft issue) is required"))
        ("is required")) ∧
    (∀ c, content_id = some c → c ≠ ("") → optStrTruthy token = true →
      (github_add_project_item token net project_id content_id draft_title draft_body).2 =
        [⟨addProjectItemByIdMutation,
          [(("projectId"), some (Json.str project_id)),
           (("contentId"), some (Json.str c))]⟩]) := by
  constructor
  · intro hc hd
    constructor
    · simp [github_add_project_item, hc, hd]
    · decide
  · intro c hceq hcne htok
    subst hceq
    have hct : optStrTruthy (some c) = true := by
      simp [optStrTruthy, hcne]
    simp only [github_add_project_item, hct, if_true, githubGraphQL, htok,
      Bool.true_eq_false, if_false, Option.getD_some]
    split <;> rfl

/-- Claim C3 witness: with both identifying arguments absent the handler
reports the requirement error without calling the transport; with both
supplied, the issued request is the add-existing-item mutation. -/
theorem claim_c3_witness :
    github_add_project_item (some ("tok")) ghNullDataNet ("P1") none none none =
      (errEnvelope ("Either content_id (for existing issue/PR) or draft_title (for draft issue) is required"),
       []) ∧
    (github_add_project_item (some ("tok")) ghNullDataNet ("P1")
        (some ("ISSUE-9")) (some ("a draft title")) none).2 =
      [⟨addProjectItemByIdMutation,
        [(("projectId"), some (Json.str ("P1"))),
         (("contentId"), some (Json.str ("ISSUE-9")))]⟩] := by
  constructor
  · exact ((claim_c3_add_item_policy (some ("tok")) ghNullDataNet ("P1") none none none).1
      (by decide) (by decide)).1
  · exact (claim_c3_add_item_policy (some ("tok")) ghNullDataNet ("P1")
      (some ("ISSUE-9")) (some ("a draft title")) none).2 ("ISSUE-9") rfl
      (by decide) (by decide)

/-- Claim C7: when the GraphQL transport returns a 2xx response whose JSON
carries a top-level `errors` list, the `github_get_project_item` handler
returns an error-flagged envelope whose text contains the comma-joined
concatenation of every error message in that list. -/
theorem claim_c7_graphql_errors
    (token : Option String) (net : GqlCall → HttpResponse)
    (item_id sText bText : String) (status : Nat) (jf : List (String × Json))
    (msgs : List String)
    (htok : optStrTruthy token = true)
    (hnet : net ⟨githubGetProjectItemQuery, [(("itemId"), some (Json.str item_id))]⟩ =
      ⟨status, sText, bText, some (Json.obj jf)⟩)
    (hok : httpOk status = true)
    (herrs : lookupField jf ("errors") =
      some (Json.arr (msgs.map fun m => Json.obj [(("message"), Json.str m)]))) :
    github_get_project_item token net item_id =
      (errEnvelope (("GitHub GraphQL error: ") ++ String.intercalate (", ") msgs),
       [⟨githubGetProjectItemQuery, [(("itemId"), some (Json.str item_id))]⟩]) ∧
    ∀ item ∈ (github_get_project_item token net item_id).1.content,
      ∃ t, item.text = some t ∧ strContains t (String.intercalate (", ") msgs) := by
  have h1 : github_get_project_item token net item_id =
      (errEnvelope (("GitHub GraphQL error: ") ++ String.intercalate (", ") msgs),
       [⟨githubGetProjectItemQuery, [(("itemId"), some (Json.str item_id))]⟩]) := by
    simp [github_get_project_item, githubGraphQL, htok, hnet, githubGraphQLHandleResp,
      HttpResponse.ok, hok, getProp_obj, herrs, truthy, jsArrayElems, jsMapExcept_message,
      joinElem_map_str, joinElem_comp_str, Bind.bind, Except.bind, Pure.pure, Except.pure]
  refine ⟨h1, ?_⟩
  rw [h1]
  intro item hitem
  rw [List.mem_singleton.mp hitem]
  refine ⟨("Error: Error: ") ++ (("GitHub GraphQL error: ") ++ String.intercalate (", ") msgs),
    rfl, ?_⟩
  rw [show ("Error: Error: ") ++ (("GitHub GraphQL error: ") ++ String.intercalate (", ") msgs) =
      (("Error: Error: ") ++ ("GitHub GraphQL error: ")) ++ String.intercalate (", ") msgs
    from (String.append_assoc _ _ _).symm]
  exact strContains_right _ _

/-- Claim C7 witness: the mocked transport returning one error message
"Could not resolve to a node" produces the error-flagged envelope carrying
that message. -/
theorem claim_c7_witness :
    github_get_project_item (some ("tok")) ghGraphQLErrorsNet ("ITEM-X") =
      (errEnvelope (("GitHub GraphQL error: ") ++
         String.intercalate (", ") [("Could not resolve to a node")]),
       [⟨githubGetProjectItemQuery, [(("itemId"), some (Json.str ("ITEM-X")))]⟩]) ∧
    String.intercalate (", ") [("Could not resolve to a node")] =
      ("Could not resolve to a node") := by
  constructor
  · exact (claim_c7_graphql_errors (some ("tok")) ghGraphQLErrorsNet ("ITEM-X")
      ("OK") ("") 200
      [(("errors"), Json.arr [Json.obj [(("message"),
        Json.str ("Could not resolve to a node"))]])]
      [("Could not resolve to a node")]
      (by decide) rfl (by decide) rfl).1
  · rfl

/-- Claim C5: the update handlers place a key in the outbound payload exactly
for the optional arguments the caller supplied (absent fields are never sent,
and with nothing supplied the payload is the empty object), and the single
issued request carries exactly that payload. -/
theorem claim_c5_update_bodies
    (token : Option String) (anet : AsanaCall → HttpResponse)
    (gnet : GhRestCall → HttpResponse)
    (task_gid owner repo : String) (issue_number : Int)
    (name notes due_on : Option String) (completed : Option Bool)
    (title body state : Option String) (labels assignees : Option (List String))
    (htok : optStrTruthy token = true) :
    ((asana_update_task token anet task_gid name notes due_on completed).2 =
      [⟨("/tasks/") ++ task_gid, ("PUT"),
        some (Json.obj [(("data"),
          Json.obj (asanaUpdateTaskUpdates name notes due_on completed))])⟩]) ∧
    ((asanaUpdateTaskUpdates name notes due_on completed).any
      (fun p => p.1 == ("name")) = name.isSome) ∧
    ((asanaUpdateTaskUpdates name notes due_on completed).any
      (fun p => p.1 == ("notes")) = notes.isSome) ∧
    ((asanaUpdateTaskUpdates name notes due_on completed).any
      (fun p => p.1 == ("due_on")) = due_on.isSome) ∧
    ((asanaUpdateTaskUpdates name notes due_on completed).any
      (fun p => p.1 == ("completed")) = completed.isSome) ∧
    (name = none → notes = none → due_on = none → completed = none →
      asanaUpdateTaskUpdates name notes due_on completed = []) ∧
    ((github_update_issue token gnet owner repo issue_number title body state
        labels assignees).2 =
      [⟨("/repos/") ++ owner ++ ("/") ++ repo ++ ("/issues/") ++ toString issue_number,
        ("PATCH"),
        some (Json.obj (githubUpdateIssueUpdates title body state labels assignees))⟩]) ∧
    ((githubUpdateIssueUpdates title body state labels assignees).any
      (fun p => p.1 == ("title")) = title.isSome) ∧
    ((githubUpdateIssueUpdates title body state labels assignees).any
      (fun p => p.1 == ("body")) = body.isSome) ∧
    ((githubUpdateIssueUpdates title body state labels assignees).any
      (fun p => p.1 == ("state")) = state.isSome) ∧
    ((githubUpdateIssueUpdates title body state labels assignees).any
      (fun p => p.1 == ("labels")) = labels.isSome) ∧
    ((githubUpdateIssueUpdates title body state labels assignees).any
      (fun p => p.1 == ("assignees")) = assignees.isSome) ∧
    (title = none → body = none → state = none → labels = none → assignees = none →
      githubUpdateIssueUpdates title body state labels assignees = []) := by
  refine ⟨?_, ?_, ?_, ?_, ?_, ?_, ?_, ?_, ?_, ?_, ?_, ?_, ?_⟩
  · simp only [asana_update_task, asanaRequest, htok, Bool.true_eq_false, if_false]
    split <;> rfl
  · cases name <;> cases notes <;> cases due_on <;> cases completed <;> rfl
  · cases name <;> cases notes <;> cases due_on <;> cases completed <;> rfl
  · cases name <;> cases notes <;> cases due_on <;> cases completed <;> rfl
  · cases name <;> cases notes <;> cases due_on <;> cases completed <;> rfl
  · intro h1 h2 h3 h4
    subst h1; subst h2; subst h3; subst h4
    rfl
  · simp only [github_update_issue, githubRest, htok, Bool.true_eq_false, if_false]
    split <;> rfl
  · cases title <;> cases body <;> cases state <;> cases labels <;> cases assignees <;> rfl
  · cases title <;> cases body <;> cases state <;> cases labels <;> cases assignees <;> rfl
  · cases title <;> cases body <;> cases state <;> cases labels <;> cases assignees <;> rfl
  · cases title <;> cases body <;> cases state <;> cases labels <;> cases assignees <;> rfl
  · cases title <;> cases body <;> cases state <;> cases labels <;> cases assignees <;> rfl
  · intro h1 h2 h3 h4 h5
    subst h1; subst h2; subst h3; subst h4; subst h5
    rfl

/-- Claim C5 witness: with no optional field supplied, both update handlers
send an empty updates object in their single request. -/
theorem claim_c5_witness :
    (asana_update_task (some ("tok")) asanaOkNet ("T1") none none none none).2 =
      [⟨("/tasks/") ++ ("T1"), ("PUT"),
        some (Json.obj [(("data"),
          Json.obj (asanaUpdateTaskUpdates none none none none))])⟩] ∧
    asanaUpdateTaskUpdates none none none none = [] ∧
    (github_update_issue (some ("tok")) gh200EmptyObjNet ("o") ("r") 7
        none none none none none).2 =
      [⟨("/repos/") ++ ("o") ++ ("/") ++ ("r") ++ ("/issues/") ++ toString (7 : Int),
        ("PATCH"),
        some (Json.obj (githubUpdateIssueUpdates none none none none none))⟩] ∧
    githubUpdateIssueUpdates none none none none none = [] := by
  obtain ⟨ha, _, _, _, _, hae, hg, _, _, _, _, _, hge⟩ :=
    claim_c5_update_bodies (some ("tok")) asanaOkNet gh200EmptyObjNet
      ("T1") ("o") ("r") 7 none none none none none none none none none (by decide)
  exact ⟨ha, hae rfl rfl rfl rfl, hg, hge rfl rfl rfl rfl rfl⟩

/-- Claim C1 counterexample: with a transport call that succeeds (200, valid
JSON, `ok: true`) but a payload missing the `channels` key, the
`slack_list_channels` handler returns an error-flagged envelope even though
the underlying call did not throw, refuting "the error flag is set if and
only if the underlying call threw". -/
theorem claim_c1_counterexample :
    (slackRequest (some ("tok")) slackNoChannelsNet ("conversations.list")
      (some (slackListChannelsParams none none))).1 =
      Except.ok (Json.obj [(("ok"), Json.bool true)]) ∧
    (slack_list_channels (some ("tok")) slackNoChannelsNet none none).1.isError = true :=
  ⟨rfl, rfl⟩

/-- Claim C1 (amended): every handler invocation returns an envelope whose
content is exactly one text item, and the error flag is set if and only if
the underlying transport call threw or the handler's reshaping of the
returned payload threw.  For `asana_list_projects` (whose reshaping cannot
throw) the flag tracks the transport call alone; for `slack_list_channels`
it also accounts for the reshaping step.  No exception escapes a handler:
both handlers are total functions of the transport oracle. -/
theorem claim_c1_envelope_contract
    (token : Option String) (anet : AsanaCall → HttpResponse)
    (snet : SlackCall → HttpResponse) (workspace_gid : String)
    (limit : Option Int) (types : Option String) :
    ((asana_list_projects token anet workspace_gid).1.content.length = 1) ∧
    ((asana_list_projects token anet workspace_gid).1.isError =
      exceptThrew (asanaRequest token anet (asanaListProjectsEndpoint workspace_gid)
        ("GET") none).1) ∧
    ((slack_list_channels token snet limit types).1.content.length = 1) ∧
    ((slack_list_channels token snet limit types).1.isError =
      (match (slackRequest token snet ("conversations.list")
          (some (slackListChannelsParams limit types))).1 with
       | .error _ => true
       | .ok json => exceptThrew (slackChannelsReshape json))) := by
  refine ⟨?_, ?_, ?_, ?_⟩
  · simp only [asana_list_projects]
    split <;> rfl
  · rcases h : (asanaRequest token anet (asanaListProjectsEndpoint workspace_gid)
        ("GET") none).1 with m | v <;>
      simp [asana_list_projects, h, exceptThrew, errEnvelope]
  · simp only [slack_list_channels]
    split
    · rfl
    · split <;> rfl
  · rcases h : (slackRequest token snet ("conversations.list")
        (some (slackListChannelsParams limit types))).1 with m | j
    · simp [slack_list_channels, h, exceptThrew, errEnvelope]
    · rcases h2 : slackChannelsReshape j with m2 | chans <;>
        simp [slack_list_channels, h, h2, exceptThrew, errEnvelope]

/-- On any field value other than JavaScript `null`, the source's filter
callback evaluates without throwing to exactly the specification predicate. -/
theorem fvStatusCallback_eq_spec (s : String) (fv : Json) (hne : fv ≠ Json.null) :
    fvStatusCallback s fv = Except.ok (fvIsStatusMatch s fv) := by
  cases fv with
  | null => exact absurd rfl hne
  | bool b => rfl
  | num n => rfl
  | str a => rfl
  | arr xs => rfl
  | obj fs =>
    cases hf : lookupField fs ("field") with
    | none =>
      simp [fvStatusCallback, fvIsStatusMatch, fvBelongsToStatusField, fvValueNameIs,
        getProp_obj, hf, getPropChain, jsEqStr, Bind.bind, Except.bind, Pure.pure,
        Except.pure]
    | some fj =>
      cases fj with
      | obj ffs =>
        cases hn : lookupField ffs ("name") with
        | none =>
          simp [fvStatusCallback, fvIsStatusMatch, fvBelongsToStatusField, fvValueNameIs,
            getProp_obj, hf, hn, getPropChain, getProp, jsEqStr, Bind.bind, Except.bind,
            Pure.pure, Except.pure]
        | some nj =>
          cases nj with
          | str nstr =>
            by_cases hS : nstr = ("Status")
            · subst hS
              simp only [fvStatusCallback, fvIsStatusMatch, fvBelongsToStatusField,
                fvValueNameIs, getProp_obj, hf, hn, getPropChain, getProp, jsEqStr,
                Bind.bind, Except.bind, Pure.pure, Except.pure, beq_self_eq_true,
                if_true, Bool.true_and]
              rfl
            · simp [fvStatusCallback, fvIsStatusMatch, fvBelongsToStatusField,
                fvValueNameIs, getProp_obj, hf, hn, getPropChain, getProp, jsEqStr, hS,
                Bind.bind, Except.bind, Pure.pure, Except.pure]
          | null =>
            simp [fvStatusCallback, fvIsStatusMatch, fvBelongsToStatusField,
              fvValueNameIs, getProp_obj, hf, hn, getPropChain, getProp, jsEqStr,
              Bind.bind, Except.bind, Pure.pure, Except.pure]
          | bool b =>
            simp [fvStatusCallback, fvIsStatusMatch, fvBelongsToStatusField,
              fvValueNameIs, getProp_obj, hf, hn, getPropChain, getProp, jsEqStr,
              Bind.bind, Except.bind, Pure.pure, Except.pure]
          | num n =>
            simp [fvStatusCallback, fvIsStatusMatch, fvBelongsToStatusField,
              fvValueNameIs, getProp_obj, hf, hn, getPropChain, getProp, jsEqStr,
              Bind.bind, Except.bind, Pure.pure, Except.pure]
          | arr xs =>
            simp [fvStatusCallback, fvIsStatusMatch, fvBelongsToStatusField,
              fvValueNameIs, getProp_obj, hf, hn, getPropChain, getProp, jsEqStr,
              Bind.bind, Except.bind, Pure.pure, Except.pure]
          | obj o2 =>
            simp [fvStatusCallback, fvIsStatusMatch, fvBelongsToStatusField,
              fvValueNameIs, getProp_obj, hf, hn, getPropChain, getProp, jsEqStr,
              Bind.bind, Except.bind, Pure.pure, Except.pure]
      | null =>
        simp [fvStatusCallback, fvIsStatusMatch, fvBelongsToStatusField, fvValueNameIs,
          getProp_obj, hf, getPropChain, jsEqStr, Bind.bind, Except.bind, Pure.pure,
          Except.pure]
      | bool b =>
        simp [fvStatusCallback, fvIsStatusMatch, fvBelongsToStatusField, fvValueNameIs,
          getProp_obj, hf, getPropChain, getProp, jsEqStr, Bind.bind, Except.bind,
          Pure.pure, Except.pure]
      | num n =>
        simp [fvStatusCallback, fvIsStatusMatch, fvBelongsToStatusField, fvValueNameIs,
          getProp_obj, hf, getPropChain, getProp, jsEqStr, Bind.bind, Except.bind,
          Pure.pure, Except.pure]
      | str a2 =>
        simp [fvStatusCallback, fvIsStatusMatch, fvBelongsToStatusField, fvValueNameIs,
          getProp_obj, hf, getPropChain, getProp, jsEqStr, Bind.bind, Except.bind,
          Pure.pure, Except.pure]
      | arr xs =>
        simp [fvStatusCallback, fvIsStatusMatch, fvBelongsToStatusField, fvValueNameIs,
          getProp_obj, hf, getPropChain, getProp, jsEqStr, Bind.bind, Except.bind,
          Pure.pure, Except.pure]

/-- On a well-formed item (an object with an object `fieldValues` holding an
array `nodes` with no `null` element), the source's status-filter predicate
evaluates without throwing to the specification predicate over the field
values. -/
theorem itemMatchesStatus_eq_spec (s : String)
    (ifs gfs : List (String × Json)) (fvs : List Json)
    (hfv : lookupField ifs ("fieldValues") = some (Json.obj gfs))
    (hnodes : lookupField gfs ("nodes") = some (Json.arr fvs))
    (hnn : Json.null ∉ fvs) :
    itemMatchesStatus s (Json.obj ifs) = Except.ok (fvs.any (fvIsStatusMatch s)) := by
  have hpt : ∀ fv ∈ fvs, fvStatusCallback s fv = Except.ok (fvIsStatusMatch s fv) :=
    fun fv h => fvStatusCallback_eq_spec s fv (fun he => hnn (he ▸ h))
  simp [itemMatchesStatus, getProp_obj, hfv, hnodes, jsArrayElems,
    jsSome_eq_ok (fvStatusCallback s) (fvIsStatusMatch s) fvs hpt,
    Bind.bind, Except.bind, Pure.pure, Except.pure]

/-- Claim C10 counterexample: with a supplied empty-string filter, an item
with no field named "Status" is returned rather than excluded — the falsy
filter disables filtering entirely. -/
theorem claim_c10_counterexample :
    specStatusMatch ("") itemOnlyText = false ∧
    (github_list_project_items (some ("tok")) ghOnlyTextNet ("P2") none none
        (some (""))).1 =
      ⟨[⟨some (stringify (jsObj [(("pageInfo"), some pageInfoFixture),
          (("items"), some (Json.arr [itemOnlyText]))]))⟩], false⟩ :=
  ⟨rfl, rfl⟩

/-- Claim C10 (amended): on well-formed items the status filter keeps an item
if and only if some field value belongs to a field named exactly "Status"
(case-sensitive) with value name exactly equal to the supplied filter string,
with no normalization; an item with no field named "Status" never matches.
A supplied empty-string filter is falsy and disables filtering entirely, so
the exclusion holds only for non-empty filters. -/
theorem claim_c10_status_match (s : String) (item : Json)
    (ifs gfs : List (String × Json)) (fvs : List Json)
    (hitem : item = Json.obj ifs)
    (hfv : lookupField ifs ("fieldValues") = some (Json.obj gfs))
    (hnodes : lookupField gfs ("nodes") = some (Json.arr fvs))
    (hnn : Json.null ∉ fvs) :
    itemMatchesStatus s item = Except.ok (specStatusMatch s item) ∧
    (specStatusMatch s item = true ↔
      ∃ fv ∈ fvs, fvBelongsToStatusField fv = true ∧ fvValueNameIs s fv = true) ∧
    ((∀ fv ∈ fvs, fvBelongsToStatusField fv = false) →
      itemMatchesStatus s item = Except.ok false) := by
  subst hitem
  have hspec : specStatusMatch s (Json.obj ifs) = fvs.any (fvIsStatusMatch s) := by
    simp [specStatusMatch, hfv, hnodes]
  refine ⟨?_, ?_, ?_⟩
  · rw [hspec]
    exact itemMatchesStatus_eq_spec s ifs gfs fvs hfv hnodes hnn
  · rw [hspec]
    simp [List.any_eq_true, fvIsStatusMatch]
  · intro hno
    have hany : fvs.any (fvIsStatusMatch s) = false := by
      rw [List.any_eq_false]
      intro fv hmem
      simp [fvIsStatusMatch, hno fv hmem]
    rw [itemMatchesStatus_eq_spec s ifs gfs fvs hfv hnodes hnn, hany]

/-- Claim C10 witness: on a well-formed item whose "Status" value is
"In Progress", the filter predicate matches exactly that string and rejects
an item with only a "Title" field. -/
theorem claim_c10_witness :
    itemMatchesStatus ("In Progress") itemInProgress = Except.ok true ∧
    itemMatchesStatus ("Done") itemInProgress = Except.ok false ∧
    itemMatchesStatus ("In Progress") itemOnlyText = Except.ok false := by
  have h1 := claim_c10_status_match ("In Progress") itemInProgress
    [(("id"), Json.str ("ITEM-A")),
     (("fieldValues"), Json.obj [(("nodes"), Json.arr
       [Json.obj [(("field"), Json.obj [(("name"), Json.str ("Status"))]),
                  (("name"), Json.str ("In Progress"))]])])]
    [(("nodes"), Json.arr
       [Json.obj [(("field"), Json.obj [(("name"), Json.str ("Status"))]),
                  (("name"), Json.str ("In Progress"))]])]
    [Json.obj [(("field"), Json.obj [(("name"), Json.str ("Status"))]),
               (("name"), Json.str ("In Progress"))]]
    rfl rfl rfl (by simp)
  have h2 := claim_c10_status_match ("Done") itemInProgress
    [(("id"), Json.str ("ITEM-A")),
     (("fieldValues"), Json.obj [(("nodes"), Json.arr
       [Json.obj [(("field"), Json.obj [(("name"), Json.str ("Status"))]),
                  (("name"), Json.str ("In Progress"))]])])]
    [(("nodes"), Json.arr
       [Json.obj [(("field"), Json.obj [(("name"), Json.str ("Status"))]),
                  (("name"), Json.str ("In Progress"))]])]
    [Json.obj [(("field"), Json.obj [(("name"), Json.str ("Status"))]),
               (("name"), Json.str ("In Progress"))]]
    rfl rfl rfl (by simp)
  have h3 := claim_c10_status_match ("In Progress") itemOnlyText
    [(("id"), Json.str ("ITEM-2")),
     (("fieldValues"), Json.obj [(("nodes"), Json.arr
       [Json.obj [(("field"), Json.obj [(("name"), Json.str ("Title"))]),
                  (("text"), Json.str ("Ship it"))]])])]
    [(("nodes"), Json.arr
       [Json.obj [(("field"), Json.obj [(("name"), Json.str ("Title"))]),
                  (("text"), Json.str ("Ship it"))]])]
    [Json.obj [(("field"), Json.obj [(("name"), Json.str ("Title"))]),
               (("text"), Json.str ("Ship it"))]]
    rfl rfl rfl (by simp)
  refine ⟨?_, ?_, ?_⟩
  · rw [h1.1]; rfl
  · rw [h2.1]; rfl
  · rw [h3.1]; rfl

/-- Claim C4 counterexample: with a supplied empty-string status filter, the
returned items are not "exactly the fetched items whose Status equals the
filter": the fetched item matches no Status value, yet it is returned
unfiltered (the falsy filter skips filtering). -/
theorem claim_c4_counterexample :
    (github_list_project_items (some ("tok")) ghOneItemNet ("P1") none none
        (some (""))).1 =
      ⟨[⟨some (stringify (jsObj [(("pageInfo"), some pageInfoFixture),
          (("items"), some (Json.arr [itemNoStatus]))]))⟩], false⟩ ∧
    specStatusMatch ("") itemNoStatus = false :=
  ⟨rfl, rfl⟩

/-- Claim C4 (amended): for every fetched page and every non-empty status
filter, `github_list_project_items` filters after fetching: the rendered
items are exactly the fetched items matching the filter, the rendered
`pageInfo` is that of the unfiltered fetched page, and the single issued
request carries the requested page size (`first ?? 50`) and cursor,
unchanged by the filter. -/
theorem claim_c4_page_then_filter
    (token : Option String) (net : GqlCall → HttpResponse)
    (project_id s sText bText : String) (firstArg : Option Int)
    (afterArg : Option String) (pi : Json) (itemsL : List Json) (status : Nat)
    (hs : s ≠ (""))
    (htok : optStrTruthy token = true)
    (hnet : net (listItemsCall project_id (firstArg.getD 50) afterArg) =
      ⟨status, sText, bText, some (listItemsRespBody pi itemsL)⟩)
    (hok : httpOk status = true)
    (heval : ∀ item ∈ itemsL,
      itemMatchesStatus s item = Except.ok (specStatusMatch s item)) :
    github_list_project_items token net project_id firstArg afterArg (some s) =
      (⟨[⟨some (stringify (jsObj [(("pageInfo"), some pi),
          (("items"), some (Json.arr (itemsL.filter (specStatusMatch s))))]))⟩],
        false⟩,
       [listItemsCall project_id (firstArg.getD 50) afterArg]) := by
  have hsb : (s != ("")) = true := by simp [hs]
  simp only [listItemsCall] at hnet
  simp [github_list_project_items, listItemsCall, githubGraphQL, htok, hnet,
    githubGraphQLHandleResp, HttpResponse.ok, hok, listItemsRespBody, getProp_obj,
    lookupField, truthy, jsArrayElems, githubListItemsReshape, hsb,
    jsFilter_eq_ok (itemMatchesStatus s) (specStatusMatch s) itemsL heval,
    Bind.bind, Except.bind, Pure.pure, Except.pure]

/-- Claim C4 witness: a two-item fetched page filtered by "In Progress"
returns exactly the matching item, keeps the unfiltered page cursor, and
requests the supplied page size of 50. -/
theorem claim_c4_witness :
    github_list_project_items (some ("tok")) ghTwoItemNet ("P3") (some 50) none
        (some ("In Progress")) =
      (⟨[⟨some (stringify (jsObj [(("pageInfo"), some pageInfoFixture),
          (("items"), some (Json.arr ([itemInProgress, itemDone].filter
            (specStatusMatch ("In Progress")))))]))⟩], false⟩,
       [listItemsCall ("P3") (((some 50) : Option Int).getD 50) none]) ∧
    [itemInProgress, itemDone].filter (specStatusMatch ("In Progress")) =
      [itemInProgress] := by
  refine ⟨?_, rfl⟩
  exact claim_c4_page_then_filter (some ("tok")) ghTwoItemNet ("P3") ("In Progress")
    ("OK") ("") (some 50) none pageInfoFixture [itemInProgress, itemDone] 200
    (by decide) (by decide) rfl (by decide)
    (by
      intro item h
      rcases List.mem_cons.mp h with rfl | h2
      · rfl
      · rcases List.mem_cons.mp h2 with rfl | h3
        · rfl
        · cases h3)
